import Mathlib

/-!
# KPlanIQ validation / fix engine — shallow embedding and verification

This file embeds the data-quality core of the KPlanIQ repository
(`backend/app/services/validation_engine.py`,
`backend/app/services/fix_engine.py`, and the relevant ORM models in
`backend/app/models/models.py`) as executable Lean definitions, and proves
or refutes the frozen claims about it.

Modelling conventions:
* Python dataframes are modelled as a `Table`: a list of column names plus a
  list of rows, each row a list of cells.  A cell is `Option String`
  (`none` = pandas `NaN`/null); the claims under verification only exercise
  string-typed columns, and `str(value)` is the identity there.  Where the
  code writes a parsed float back into a cell, we store its decimal
  rendering.
* Python floats that hold small integers or one-decimal fractions are
  modelled as `Int`/`Rat`; all arithmetic performed by the code on them is
  exact in IEEE double, so this is faithful.
* Exceptions are modelled with `Except String`; `try/except` around a call
  becomes a `match` on the result.
-/

namespace KPlanIQ

/-! ## Table model (pandas DataFrame snapshot) -/

/-- A cell: `none` models pandas `NaN`/null, `some s` a (stringly) value. -/
abbrev Cell := Option String

/-- In-memory table: named columns and positional rows, as loaded from the
uploaded census file.  Row `r`, column name `c` addresses cell
`rows[r][index of c in cols]`. -/
structure Table where
  cols : List String
  rows : List (List Cell)
deriving Repr, DecidableEq

/-- Index of a named column, `none` when the column is absent
(models `col in df.columns` + positional access). -/
def Table.colIdx (t : Table) (c : String) : Option Nat :=
  t.cols.findIdx? (fun x => x = c)

/-- Whether the table has a column of this name (models `col in df.columns`). -/
def Table.hasCol (t : Table) (c : String) : Bool :=
  t.cols.contains c

/-- `df.at[r, c]` — the cell at row `r`, column `c`; `none` when the row or
column does not exist. -/
def Table.cellAt (t : Table) (r : Nat) (c : String) : Option Cell :=
  match t.colIdx c with
  | none => none
  | some ci =>
    match t.rows[r]? with
    | none => none
    | some row => row[ci]?

/-- `df.at[r, c] = v` — functional update of one cell; out-of-range writes
leave the table unchanged. -/
def Table.setCell (t : Table) (r : Nat) (c : String) (v : Cell) : Table :=
  match t.colIdx c with
  | none => t
  | some ci =>
    match t.rows[r]? with
    | none => t
    | some row => { t with rows := t.rows.set r (row.set ci v) }

/-! ## Validation-engine enums and the `ValidationIssue` dataclass
(`validation_engine.py`) -/

/-- `class IssueType(Enum)` — critical/warning/info. -/
inductive IssueType where
  | critical
  | warning
  | info
deriving Repr, DecidableEq

/-- `class Severity(Enum)` — high/medium/low. -/
inductive Severity where
  | high
  | medium
  | low
deriving Repr, DecidableEq

/-- `class Category(Enum)` from `validation_engine.py`. -/
inductive Category where
  | missing_data
  | format_error
  | logic_error
  | compliance_error
  | anomaly
deriving Repr, DecidableEq

/-- The `.value` string of each `Category` member, exactly as declared in
`validation_engine.py` lines 29–34. -/
def Category.value : Category → String
  | .missing_data => "missing_data"
  | .format_error => "format_error"
  | .logic_error => "logic_error"
  | .compliance_error => "compliance_error"
  | .anomaly => "anomaly"

/-- The `@dataclass ValidationIssue` of `validation_engine.py` (the fields the
claims exercise; `id`/`file_upload_id`/timestamps carry no logic). -/
structure ValidationIssue where
  issue_type : IssueType := .info
  severity : Severity := .low
  category : Category := .missing_data
  title : String := ""
  description : String := ""
  affected_rows : List Nat := []
  affected_employees : Nat := 0
  suggested_action : String := ""
  auto_fixable : Bool := false
  is_resolved : Bool := false
  confidence_score : Rat := 0
  details : List (String × String) := []
deriving Repr, DecidableEq

/-- `ValidationIssue.__post_init__`: after construction the stored
`affected_employees` is overwritten with `len(set(self.affected_rows))`,
whatever the constructor argument was. -/
def mkValidationIssue (i : ValidationIssue) : ValidationIssue :=
  { i with affected_employees := i.affected_rows.dedup.length }

/-! ## Required-fields detector (`_validate_required_fields`,
`validation_engine.py` lines 118–151) -/

/-- `required_fields = ['SSN', 'DOB', 'DOH', 'PriorYearComp']`. -/
def requiredFields : List String := ["SSN", "DOB", "DOH", "PriorYearComp"]

/-- The cells of one named column, top to bottom (empty when absent). -/
def Table.colCells (t : Table) (c : String) : List Cell :=
  match t.colIdx c with
  | none => []
  | some ci => t.rows.map (fun row => (row[ci]?).getD none)

/-- `df[field].isnull()` row indices: the positions whose cell is null
(models `self.df[null_mask].index.tolist()`). -/
def Table.nullRows (t : Table) (c : String) : List Nat :=
  ((t.colCells c).enum.filter (fun p => p.2.isNone)).map Prod.fst

/-- `_validate_required_fields`: for each required field, a critical/high
missing-data issue when the column is absent (constructed with the
table-scoped `affected_employees=len(self.df)`), else a critical/high
missing-data issue listing the null rows when any cell is null.  Every
issue goes through the dataclass constructor, hence `mkValidationIssue`. -/
def validate_required_fields (df : Table) : List ValidationIssue :=
  requiredFields.flatMap fun f =>
    if df.hasCol f then
      let null_rows := df.nullRows f
      if null_rows.isEmpty then []
      else
        [mkValidationIssue
          { issue_type := .critical, severity := .high,
            category := .missing_data,
            title := "Missing Values in " ++ f,
            description := toString null_rows.length ++ " employees are missing "
              ++ f ++ " values, which are required for compliance testing.",
            affected_rows := null_rows,
            affected_employees := null_rows.length,
            suggested_action := "Provide " ++ f
              ++ " values for all employees or exclude incomplete records.",
            auto_fixable := false,
            confidence_score := 1,
            details := [("field_name", f),
                        ("null_count", toString null_rows.length)] }]
    else
      [mkValidationIssue
        { issue_type := .critical, severity := .high,
          category := .missing_data,
          title := "Missing Required Field: " ++ f,
          description := "The " ++ f
            ++ " field is required for compliance testing but was not found in the uploaded data.",
          affected_rows := [],
          affected_employees := df.rows.length,
          suggested_action := "Add the " ++ f
            ++ " column to your data file or map an existing column to " ++ f ++ ".",
          auto_fixable := false,
          confidence_score := 1,
          details := [("field_name", f),
                      ("required_for", "compliance_testing")] }]

/-! ## SSN standardizer and auto-fixer
(`IssueFixEngine._standardize_ssn` / `_fix_ssn_formats`,
`fix_engine.py` lines 145–181) -/

/-- `re.sub(r'\D', '', ssn_str)`: drop every non-digit character. -/
def stripNonDigits (s : String) : String :=
  String.mk (s.data.filter Char.isDigit)

/-- `f"{digits[:3]}-{digits[3:5]}-{digits[5:]}"`. -/
def formatSsn (digits : String) : String :=
  String.mk (digits.data.take 3) ++ "-" ++ String.mk ((digits.data.drop 3).take 2)
    ++ "-" ++ String.mk (digits.data.drop 5)

/-- `_standardize_ssn`: strip non-digits; exactly 9 digits ⇒
`XXX-XX-XXXX`, anything else ⇒ `None`. -/
def standardize_ssn (ssn_str : String) : Option String :=
  let digits := stripNonDigits ssn_str
  if digits.length = 9 then some (formatSsn digits) else none

/-- `ssn_columns = ['SSN', 'SocialSecurityNumber', 'EmpSSN']`. -/
def ssnColumns : List String := ["SSN", "SocialSecurityNumber", "EmpSSN"]

/-- One entry of a fix's `details` list:
`{"row": …, "column": …, "original": …, "fixed": …}`. -/
structure Change where
  row : Nat
  column : String
  original : String
  fixed : String
deriving Repr, DecidableEq

/-- The body of `_fix_ssn_formats`'s inner loop for one `(row, column)`
pair: skip absent columns and null cells; standardize; write back and record
the change only when the standardized value differs from the original. -/
def fixSsnCell (df : Table) (res : List Change) (r : Nat) (c : String) :
    Table × List Change :=
  if df.hasCol c then
    match df.cellAt r c with
    | some (some orig) =>
      match standardize_ssn orig with
      | some fixed =>
        if fixed ≠ orig then
          (df.setCell r c (some fixed), res ++ [⟨r, c, orig, fixed⟩])
        else (df, res)
      | none => (df, res)
    | _ => (df, res)
  else (df, res)

/-- `_fix_ssn_formats`'s inner loop over the three SSN column names for one
affected row. -/
def fixSsnRow (st : Table × List Change) (r : Nat) : Table × List Change :=
  ssnColumns.foldl (fun st2 c => fixSsnCell st2.1 st2.2 r c) st

/-- `_fix_ssn_formats`: iterate the affected rows (skipping out-of-range
indices) and apply the cell fixer to each present SSN column; returns the
mutated table and the recorded changes. -/
def fix_ssn_formats (df : Table) (affected_rows : List Nat) :
    Table × List Change :=
  affected_rows.foldl
    (fun st r => if st.1.rows.length ≤ r then st else fixSsnRow st r)
    (df, [])

/-! ## Date standardization
(`IssueFixEngine._standardize_date`, `fix_engine.py` lines 119–143, and the
cell-level normalization of `_auto_fix_date_format`,
`validation_engine.py` lines 859–879) -/

/-- Nondeterministic prefix matcher over character lists: all remainders a
regex fragment can leave.  Used to embed `re.search` with backtracking. -/
abbrev Matcher := List Char → List (List Char)

/-- Sequencing of regex fragments. -/
def mseq (m1 m2 : Matcher) : Matcher := fun cs => (m1 cs).flatMap m2

/-- `p{lo,hi}`: between `lo` and `hi` characters satisfying `p`. -/
def mcount (p : Char → Bool) (lo hi : Nat) : Matcher := fun cs =>
  (List.range (hi + 1)).filterMap fun k =>
    if lo ≤ k ∧ (cs.take k).length = k ∧ (cs.take k).all p then
      some (cs.drop k)
    else none

/-- `p+`: one or more characters satisfying `p`. -/
def mplus (p : Char → Bool) : Matcher := fun cs =>
  mcount p 1 cs.length cs

/-- A single character satisfying `p`. -/
def mchar (p : Char → Bool) : Matcher := fun cs =>
  match cs with
  | [] => []
  | c :: rest => if p c then [rest] else []

/-- `fragment?`: optional. -/
def mopt (m : Matcher) : Matcher := fun cs => m cs ++ [cs]

/-- `\d{lo,hi}`. -/
def mdigits (lo hi : Nat) : Matcher := mcount Char.isDigit lo hi

/-- The separator class of the source date regexes: `/` or `-`. -/
def msep : Matcher := mchar (fun c => c = '/' ∨ c = '-')

/-- `re.search(pattern, s)`: does the fragment match starting anywhere? -/
def msearch (m : Matcher) (s : String) : Bool :=
  s.data.tails.any (fun t => !(m t).isEmpty)

/-- The five regexes of `_standardize_date`, in source order:
`MM/DD/YYYY`, `YYYY/MM/DD`, `MM/DD/YY`, `Month DD, YYYY`, `DD Month YYYY`
(with slash-or-dash separators and `\s+` whitespace). -/
def dateRegexPatterns : List Matcher :=
  [ mseq (mdigits 1 2) (mseq msep (mseq (mdigits 1 2) (mseq msep (mdigits 4 4)))),
    mseq (mdigits 4 4) (mseq msep (mseq (mdigits 1 2) (mseq msep (mdigits 1 2)))),
    mseq (mdigits 1 2) (mseq msep (mseq (mdigits 1 2) (mseq msep (mdigits 2 2)))),
    mseq (mplus Char.isAlpha)
      (mseq (mplus Char.isWhitespace)
        (mseq (mdigits 1 2)
          (mseq (mopt (mchar (fun c => c = ',')))
            (mseq (mplus Char.isWhitespace) (mdigits 4 4))))),
    mseq (mdigits 1 2)
      (mseq (mplus Char.isWhitespace)
        (mseq (mplus Char.isAlpha)
          (mseq (mplus Char.isWhitespace) (mdigits 4 4)))) ]

/-- A calendar date as year/month/day. -/
structure YMD where
  year : Nat
  month : Nat
  day : Nat
deriving Repr, DecidableEq

/-- English month names as `pd.to_datetime` accepts them spelled out. -/
def monthOfName (s : String) : Option Nat :=
  [("January", 1), ("February", 2), ("March", 3), ("April", 4),
   ("May", 5), ("June", 6), ("July", 7), ("August", 8), ("September", 9),
   ("October", 10), ("November", 11), ("December", 12)].lookup s

def digitsToNat (cs : List Char) : Nat :=
  cs.foldl (fun n c => 10 * n + (c.toNat - '0'.toNat)) 0

/-- Month/day sanity bounds (pandas rejects out-of-range fields). -/
def mkYMD (y m d : Nat) : Option YMD :=
  if 1 ≤ m ∧ m ≤ 12 ∧ 1 ≤ d ∧ d ≤ 31 then some ⟨y, m, d⟩ else none

/-- Numeric date forms: three all-digit groups split on `/` or `-`;
a leading 4-digit group is year-first (ISO), a trailing 4-digit group is
parsed month-first (pandas' US default). -/
def numericDateParse (s : String) : Option YMD :=
  match s.data.splitOnP (fun c => c = '/' ∨ c = '-') with
  | [a, b, c] =>
    if a ≠ [] ∧ b ≠ [] ∧ c ≠ []
        ∧ a.all Char.isDigit ∧ b.all Char.isDigit ∧ c.all Char.isDigit then
      if a.length = 4 then mkYMD (digitsToNat a) (digitsToNat b) (digitsToNat c)
      else if c.length = 4 then
        mkYMD (digitsToNat c) (digitsToNat a) (digitsToNat b)
      else none
    else none
  | _ => none

/-- `Month DD, YYYY` / `Month DD YYYY` forms. -/
def monthNameDateParse (s : String) : Option YMD :=
  let cs := s.data
  let word := cs.takeWhile Char.isAlpha
  let rest1 := cs.dropWhile Char.isAlpha
  let rest2 := rest1.dropWhile Char.isWhitespace
  let dayCs := rest2.takeWhile Char.isDigit
  let rest3 := rest2.dropWhile Char.isDigit
  let rest4 := if rest3.head? = some ',' then rest3.tail else rest3
  let rest5 := rest4.dropWhile Char.isWhitespace
  let yearCs := rest5.takeWhile Char.isDigit
  let rest6 := rest5.dropWhile Char.isDigit
  if word ≠ [] ∧ dayCs ≠ [] ∧ dayCs.length ≤ 2 ∧ yearCs.length = 4
      ∧ rest6 = [] then
    match monthOfName (String.mk word) with
    | some m => mkYMD (digitsToNat yearCs) m (digitsToNat dayCs)
    | none => none
  else none

/-- Models `pd.to_datetime(s)` on the date shapes this development
exercises: ISO `YYYY-MM-DD` (or `/`), US `MM/DD/YYYY` (or `-`), and spelled
`Month DD, YYYY`; other shapes are treated as a parse failure
(`NaT`/raised exception in the source). -/
def parseDate (s : String) : Option YMD :=
  match numericDateParse s with
  | some d => some d
  | none => monthNameDateParse s

def pad2 (n : Nat) : String :=
  if n < 10 then "0" ++ toString n else toString n

def pad4 (n : Nat) : String :=
  if n < 10 then "000" ++ toString n
  else if n < 100 then "00" ++ toString n
  else if n < 1000 then "0" ++ toString n
  else toString n

/-- `strftime('%m/%d/%Y')`. -/
def strftimeMDY (d : YMD) : String :=
  pad2 d.month ++ "/" ++ pad2 d.day ++ "/" ++ pad4 d.year

/-- `strftime('%Y-%m-%d')`. -/
def strftimeYMD (d : YMD) : String :=
  pad4 d.year ++ "-" ++ pad2 d.month ++ "-" ++ pad2 d.day

/-- `IssueFixEngine._standardize_date`: if any of the five regexes matches
anywhere in the string, reparse the whole string with pandas and re-emit as
`MM/DD/YYYY`; `None` when no pattern matches or parsing fails.  (The
source's per-pattern loop reparses the same string each round, so one
combined test is equivalent.) -/
def standardize_date (date_str : String) : Option String :=
  if dateRegexPatterns.any (fun m => msearch m date_str) then
    match parseDate date_str with
    | some d => some (strftimeMDY d)
    | none => none
  else none

/-- The cell-level normalization of the validation engine's
`_auto_fix_date_format`: `pd.to_datetime(value)` re-emitted via
`strftime('%Y-%m-%d')`; a parse failure raises and the cell is skipped. -/
def auto_fix_date_value (s : String) : Option String :=
  (parseDate s).map strftimeYMD

/-! ## Fix-engine data model (`fix_engine.py`, `models.py`) -/

/-- Substring test on the lowercased title:
`'date' in issue.title.lower()` etc. (char-level lowering; Python `lower()`
and `Char.toLower` agree on the ASCII titles involved). -/
def lowerContains (s sub : String) : Bool :=
  (s.data.map Char.toLower).tails.any (fun t => sub.data.isPrefixOf t)

/-- Model of Python `float()` on plain decimal literals: optional
surrounding whitespace, optional sign, digits with at most one decimal
point, at least one digit.  (Exponent/`inf`/`nan` spellings do not occur in
census cells and are out of the modelled fragment.) -/
def parseFloat (s : String) : Option Rat :=
  let cs := ((s.data.dropWhile Char.isWhitespace).reverse.dropWhile
    Char.isWhitespace).reverse
  let signed : Int × List Char :=
    match cs with
    | '-' :: rest => (-1, rest)
    | '+' :: rest => (1, rest)
    | _ => (1, cs)
  let sign := signed.1
  let body := signed.2
  let intPart := body.takeWhile Char.isDigit
  let rest := body.dropWhile Char.isDigit
  match rest with
  | [] =>
    if intPart.isEmpty then none
    else some ((sign * digitsToNat intPart : Int) : Rat)
  | '.' :: fracCs =>
    let fracPart := fracCs.takeWhile Char.isDigit
    let rest2 := fracCs.dropWhile Char.isDigit
    if rest2.isEmpty ∧ (¬intPart.isEmpty ∨ ¬fracPart.isEmpty) then
      some ((sign : Rat) * ((digitsToNat intPart : Rat)
        + (digitsToNat fracPart : Rat) / ((10 : Rat) ^ fracPart.length)))
    else none
  | _ => none

/-- Decimal rendering of a written-back float.  Census fixes produce
integral floats (rendered `n.0` as Python does); the non-integral fallback
renders the exact rational, a modelling artifact no claim exercises. -/
def floatRepr (q : Rat) : String :=
  if q.den = 1 then toString q.num ++ ".0" else toString q

/-- `_clean_numeric`: strip `$`, `,`, whitespace and `%`
(`re.sub(r'[$,\s%]', '', value_str)`), then `float(...)`;
`None` when unparsable. -/
def clean_numeric (value_str : String) : Option Rat :=
  parseFloat (String.mk (value_str.data.filter
    (fun c => ¬(c = '$' ∨ c = ',' ∨ c.isWhitespace ∨ c = '%'))))

/-! ### The `ValidationResult` ORM row and the engine state -/

/-- The `ValidationResult` model of `models.py` as the fix engine reads it:
string-typed `issue_type`/`severity`/`category` (the lowercase enum `.value`s
are stored).  `affected_rows` and `details` are `Column(JSON)` fields, so the
ORM hands back their deserialized values: a list of row indices, and — for
`details` — SQL NULL (`none`) or the deserialized dict the detector stored
(modelled as its key/value pairs, values stringified).
`resolution_method`/`resolution_data` are the dynamic attributes
`undo_issue_fix` manipulates. -/
structure ValidationResult where
  id : Nat := 0
  issue_type : String := "info"
  severity : String := "low"
  category : String := ""
  title : String := ""
  description : String := ""
  affected_rows : List Nat := []
  affected_employees : Nat := 0
  auto_fixable : Bool := false
  is_resolved : Bool := false
  confidence_score : Rat := 0
  details : Option (List (String × String)) := none
  resolution_method : Option String := none
  resolution_data : Option String := none
deriving Repr, DecidableEq

/-- `issue_details = json.loads(issue.details) if issue.details else {}`
(`fix_engine.py` line 64), where `issue.details` is the runtime value of the
`Column(JSON)` field, i.e. already deserialized.  SQL NULL (`None`) and the
empty dict are falsy, so the call is skipped and `{}` used; a non-empty dict
is truthy, and `json.loads` of a dict raises
`TypeError: the JSON object must be str, bytes or bytearray, not dict` —
modelled as `none`.  Every issue the validation engine emits stores a
non-empty details dict, so this raise hits exactly those issues. -/
def loadIssueDetails :
    Option (List (String × String)) → Option (List (String × String))
  | none => some []
  | some [] => some []
  | some (_ :: _) => none

/-- The mutable state an `IssueFixEngine` instance owns: the working
dataframe `self.df` and the persisted backing file it was loaded from
(which `_save_dataframe` overwrites and commits). -/
structure EngineState where
  df : Table
  fileContents : Table
deriving Repr, DecidableEq

/-- `_save_dataframe`: write `self.df` back over the uploaded file and
commit (`db.commit()`; the timestamp update carries no logic). -/
def save_dataframe (st : EngineState) : EngineState :=
  { st with fileContents := st.df }

/-- A `FixHistory` row (`models.py` lines 281–294) as far as undo is
concerned: the audit record that may carry `rollback_data`. -/
structure FixHistoryRecord where
  validation_result_id : Nat := 0
  fix_type : String := ""
  success : Bool := true
  error_message : Option String := none
  rollback_data : Option String := none
deriving Repr, DecidableEq

/-- One `{"row","column","original","generated"}` entry of
`_generate_test_ssns`. -/
structure GenChange where
  row : Nat
  column : String
  original : String
  generated : String
deriving Repr, DecidableEq

/-- The result dictionary returned by `_apply_auto_fix`. -/
structure AutoFixResult where
  action : String
  affected_rows : Nat
  changes_applied : Nat
  details : List Change
deriving Repr, DecidableEq

/-- The per-action result shapes `apply_fix` can return. -/
inductive FixResult where
  | autoFix (r : AutoFixResult)
  | manualFix (changes_applied : Nat) (details : List Change)
  | exclude (excluded_rows : Nat) (details : String)
  | accept (message : String) (details : String)
  | generateTestSsns (generated_count : Nat) (details : List GenChange)
deriving Repr, DecidableEq

/-- The optional `fix_data` payload of a manual fix. -/
structure FixData where
  ssn_fixes : List (Nat × String) := []
  compensation : Option String := none
deriving Repr, DecidableEq

/-! ### The auto-fixers for dates and numerics
(`_fix_date_formats` lines 91–117, `_fix_numeric_formats` lines 183–209;
the SSN fixer was embedded above) -/

/-- `date_columns` of `_fix_date_formats`. -/
def dateColumns : List String :=
  ["DOB", "DOH", "DOT", "HireDate", "TermDate", "DateOfBirth"]

/-- `_fix_date_formats`'s inner-loop body for one `(row, column)` pair. -/
def fixDateCell (df : Table) (res : List Change) (r : Nat) (c : String) :
    Table × List Change :=
  if df.hasCol c then
    match df.cellAt r c with
    | some (some orig) =>
      match standardize_date orig with
      | some fixed =>
        if fixed ≠ orig then
          (df.setCell r c (some fixed), res ++ [⟨r, c, orig, fixed⟩])
        else (df, res)
      | none => (df, res)
    | _ => (df, res)
  else (df, res)

/-- `_fix_date_formats`: standardize every affected date cell in place. -/
def fix_date_formats (df : Table) (affected_rows : List Nat) :
    Table × List Change :=
  affected_rows.foldl
    (fun st r =>
      if st.1.rows.length ≤ r then st
      else dateColumns.foldl (fun st2 c => fixDateCell st2.1 st2.2 r c) st)
    (df, [])

/-- `numeric_columns` of `_fix_numeric_formats`. -/
def numericColumns : List String :=
  ["PriorYearComp", "Compensation", "Salary", "EmployeeDeferrals", "EmployerMatch"]

/-- `_fix_numeric_formats`'s inner-loop body.  The source guard
`fixed_value is not None and fixed_value != original_value` compares a float
against the original cell object; on the string cells modelled here the
comparison is always true, so a successful parse always writes. -/
def fixNumericCell (df : Table) (res : List Change) (r : Nat) (c : String) :
    Table × List Change :=
  if df.hasCol c then
    match df.cellAt r c with
    | some (some orig) =>
      match clean_numeric orig with
      | some q =>
        (df.setCell r c (some (floatRepr q)), res ++ [⟨r, c, orig, floatRepr q⟩])
      | none => (df, res)
    | _ => (df, res)
  else (df, res)

/-- `_fix_numeric_formats` (its `issue_details` parameter is never read in
the source body). -/
def fix_numeric_formats (df : Table) (affected_rows : List Nat)
    (_issue_details : List (String × String)) : Table × List Change :=
  affected_rows.foldl
    (fun st r =>
      if st.1.rows.length ≤ r then st
      else numericColumns.foldl (fun st2 c => fixNumericCell st2.1 st2.2 r c) st)
    (df, [])

/-! ### `apply_fix` and its per-action helpers -/

/-- The category/title dispatch block at the heart of `_apply_auto_fix`
(the `if issue.category == 'Format Error': … elif issue.category ==
'Missing Data': …` chain computing `results`); the `'Missing Data'` /
`'Missing Required Fields'` arm calls the nonexistent
`_fix_missing_required_fields`, hence `AttributeError`. -/
def autoFixDispatch (st : EngineState) (issue : ValidationResult)
    (issue_details : List (String × String)) :
    Except String (Table × List Change) :=
  if issue.category = "Format Error" then
    if lowerContains issue.title "date" then
      .ok (fix_date_formats st.df issue.affected_rows)
    else if lowerContains issue.title "ssn" then
      .ok (fix_ssn_formats st.df issue.affected_rows)
    else if lowerContains issue.title "numeric" then
      .ok (fix_numeric_formats st.df issue.affected_rows issue_details)
    else .ok (st.df, [])
  else if issue.category = "Missing Data" then
    if issue.title = "Missing Required Fields" then
      .error "AttributeError: no attribute _fix_missing_required_fields"
    else .ok (st.df, [])
  else .ok (st.df, [])

/-- `_apply_auto_fix` (`fix_engine.py` lines 59–89): reject
non-auto-fixable issues; `json.loads` the details — which raises
`TypeError` on the non-empty deserialized dict every engine-emitted issue
carries, before the dispatch is ever reached; otherwise run the
category/title dispatch, then `_save_dataframe` and return the result
dictionary. -/
def apply_auto_fix (st : EngineState) (issue : ValidationResult) :
    Except String (AutoFixResult × EngineState) :=
  if issue.auto_fixable = false then
    .error "Issue is not auto-fixable"
  else
    match loadIssueDetails issue.details with
    | none => .error "TypeError: the JSON object must be str, bytes or bytearray, not dict"
    | some issue_details =>
      match autoFixDispatch st issue issue_details with
      | .error e => .error e
      | .ok (df2, results) =>
        .ok ({ action := "auto_fix",
               affected_rows := issue.affected_rows.length,
               changes_applied := results.length,
               details := results },
          save_dataframe { st with df := df2 })

/-- The first SSN column present in the table (the column-search loop shared
by the manual SSN path and `_generate_test_ssns`). -/
def findSsnCol (df : Table) : Option String :=
  ssnColumns.find? (fun c => df.hasCol c)

/-- `comp_columns` of the manual compensation path. -/
def compColumns : List String := ["PriorYearComp", "Compensation", "Salary"]

/-- The compensation loop of `_apply_manual_fix`: for each affected row the
first present compensation column receives
`float(fix_data['compensation'].replace('$','').replace(',',''))`; the
conversion happens inside the loop, so an unparsable amount raises only
when some affected row and compensation column exist. -/
def manualCompLoop (compRaw : String) :
    List Nat → Table → List Change → Except String (Table × List Change)
  | [], df, res => .ok (df, res)
  | row_idx :: rest, df, res =>
    if row_idx < df.rows.length then
      match compColumns.find? (fun c => df.hasCol c) with
      | some col =>
        match parseFloat (String.mk (compRaw.data.filter
            (fun ch => ¬(ch = '$' ∨ ch = ',')))) with
        | none => .error "ValueError: could not convert string to float"
        | some q =>
          let original :=
            match df.cellAt row_idx col with
            | some (some s) => s
            | _ => "nan"
          manualCompLoop compRaw rest
            (df.setCell row_idx col (some (floatRepr q)))
            (res ++ [⟨row_idx, col, original, floatRepr q⟩])
      | none => manualCompLoop compRaw rest df res
    else manualCompLoop compRaw rest df res

/-- `_apply_manual_fix` (lines 221–274): apply the `ssn_fixes` map, then the
`compensation` amount over the issue's affected rows, save, and return the
count of changes.  A missing `fix_data` raises (`None` is not
subscriptable); in the model an error discards the partially-updated
table, which no claim exercises. -/
def apply_manual_fix (st : EngineState) (issue : ValidationResult)
    (fix_data : Option FixData) : Except String (FixResult × EngineState) :=
  match fix_data with
  | none => .error "TypeError: argument of type NoneType is not iterable"
  | some fd =>
    let ssnPass :=
      fd.ssn_fixes.foldl
        (fun (acc : Table × List Change) p =>
          let row_idx := p.1
          let ssn_value := p.2
          if row_idx < acc.1.rows.length then
            match findSsnCol acc.1 with
            | some ssn_col =>
              let original :=
                match acc.1.cellAt row_idx ssn_col with
                | some (some s) => s
                | _ => "MISSING"
              (acc.1.setCell row_idx ssn_col (some ssn_value),
               acc.2 ++ [⟨row_idx, ssn_col, original, ssn_value⟩])
            | none => acc
          else acc)
        (st.df, [])
    match fd.compensation with
    | none =>
      .ok (.manualFix ssnPass.2.length ssnPass.2,
        save_dataframe { st with df := ssnPass.1 })
    | some compStr =>
      match manualCompLoop compStr issue.affected_rows ssnPass.1 ssnPass.2 with
      | .error e => .error e
      | .ok (df2, res2) =>
        .ok (.manualFix res2.length res2, save_dataframe { st with df := df2 })

/-- Add the `exclude_from_testing` flag column (default `False`) when
absent. -/
def addExcludeColumn (t : Table) : Table :=
  if t.hasCol "exclude_from_testing" then t
  else { cols := t.cols ++ ["exclude_from_testing"],
         rows := t.rows.map (fun row => row ++ [some "False"]) }

/-- `_apply_exclusion` (lines 276–295): flag the affected rows, save.
Booleans are modelled by their Python reprs `"True"`/`"False"`. -/
def apply_exclusion (st : EngineState) (issue : ValidationResult) :
    Except String (FixResult × EngineState) :=
  let df1 := addExcludeColumn st.df
  let df2 := issue.affected_rows.foldl
    (fun d r =>
      if r < d.rows.length then d.setCell r "exclude_from_testing" (some "True")
      else d)
    df1
  .ok (.exclude issue.affected_rows.length
        ("Excluded " ++ toString issue.affected_rows.length
          ++ " rows from compliance testing"),
      save_dataframe { st with df := df2 })

/-- `_apply_acceptance` (lines 297–303): no data mutation, no save. -/
def apply_acceptance (st : EngineState) (issue : ValidationResult) :
    Except String (FixResult × EngineState) :=
  .ok (.accept "Issue accepted as valid - no changes made"
        ("Accepted: " ++ issue.title), st)

/-- `_generate_test_ssns` (lines 314–353): sequential synthetic SSNs from
`123456789` written over the affected rows of the first SSN column. -/
def generate_test_ssns (st : EngineState) (issue : ValidationResult) :
    Except String (FixResult × EngineState) :=
  match findSsnCol st.df with
  | none => .error "No SSN column found"
  | some ssn_col =>
    let pass := issue.affected_rows.enum.foldl
      (fun (acc : Table × List GenChange) p =>
        let i := p.1
        let row_idx := p.2
        if row_idx < acc.1.rows.length then
          let num := toString (123456789 + i)
          let test_ssn := String.mk (num.data.take 3) ++ "-"
            ++ String.mk ((num.data.drop 3).take 2) ++ "-"
            ++ String.mk (num.data.drop 5)
          let original :=
            match acc.1.cellAt row_idx ssn_col with
            | some (some s) => s
            | _ => "MISSING"
          (acc.1.setCell row_idx ssn_col (some test_ssn),
           acc.2 ++ [⟨row_idx, ssn_col, original, test_ssn⟩])
        else acc)
      (st.df, [])
    .ok (.generateTestSsns pass.2.length pass.2,
      save_dataframe { st with df := pass.1 })

/-- `_generate_test_data` (lines 305–312): dispatch on title substrings;
the compensation generator is another undefined method
(`AttributeError`). -/
def generate_test_data (st : EngineState) (issue : ValidationResult) :
    Except String (FixResult × EngineState) :=
  if lowerContains issue.title "ssn" then generate_test_ssns st issue
  else if lowerContains issue.title "compensation" then
    .error "AttributeError: no attribute _generate_test_compensation"
  else .error ("Cannot generate test data for issue type: " ++ issue.title)

/-- `apply_fix` (lines 39–57): dispatch on the action string; unknown
actions raise. -/
def apply_fix (st : EngineState) (issue : ValidationResult)
    (action_type : String) (fix_data : Option FixData) :
    Except String (FixResult × EngineState) :=
  if action_type = "auto_fix" then
    match apply_auto_fix st issue with
    | .error e => .error e
    | .ok (r, st2) => .ok (.autoFix r, st2)
  else if action_type = "manual_entry" then apply_manual_fix st issue fix_data
  else if action_type = "exclude" then apply_exclusion st issue
  else if action_type = "accept" then apply_acceptance st issue
  else if action_type = "generate_test" then generate_test_data st issue
  else .error ("Unknown action type: " ++ action_type)

/-! ### `preview_fix`, `get_fix_suggestions`, `undo_issue_fix`
and the bulk engine -/

/-- The preview dictionary `preview_fix` returns
(`changes` plus the `summary` counters). -/
structure PreviewResult where
  changes : List Change
  affected_rows : Nat
  changes_count : Nat
deriving Repr, DecidableEq

/-- `preview_fix` (`fix_engine.py` lines 423–452): reject non-auto-fixable
issues; point `self.df` at a copy of the table (equal by value), run
`_apply_auto_fix` on it — which mutates the copy and then calls
`_save_dataframe`, persisting the copy over the backing file — and in the
`finally` block restore only `self.df` to the original value. -/
def preview_fix (st : EngineState) (issue : ValidationResult) :
    Except String (PreviewResult × EngineState) :=
  if issue.auto_fixable = false then .error "Issue is not auto-fixable"
  else
    match apply_auto_fix st issue with
    | .error e => .error e
    | .ok (r, st2) =>
      .ok ({ changes := r.details,
             affected_rows := r.affected_rows,
             changes_count := r.changes_applied },
        { st2 with df := st.df })

/-- One suggestion entry of `get_fix_suggestions`. -/
structure Suggestion where
  suggestion_type : String
  title : String
  description : String
  confidence : Rat
deriving Repr, DecidableEq

/-- `get_fix_suggestions` (lines 371–421): an `auto_fix` entry when the
issue is auto-fixable (confidence = the issue's score); then the
category-specific entries behind exact string matches on `'Missing Data'` /
`'Anomaly'`. -/
def get_fix_suggestions (issue : ValidationResult) : List Suggestion :=
  (if issue.auto_fixable then
    [{ suggestion_type := "auto_fix", title := "Auto-Fix",
       description := "Automatically fix this issue using built-in rules",
       confidence := issue.confidence_score }]
  else [])
  ++ (if issue.category = "Missing Data" then
        [{ suggestion_type := "manual_entry", title := "Manual Entry",
           description := "Manually enter the missing data",
           confidence := 1 },
         { suggestion_type := "exclude", title := "Exclude from Testing",
           description := "Exclude affected records from compliance tests",
           confidence := (8 : Rat) / 10 },
         { suggestion_type := "generate_test", title := "Generate Test Data",
           description := "Generate test data for development/testing purposes",
           confidence := (6 : Rat) / 10 }]
      else if issue.category = "Anomaly" then
        [{ suggestion_type := "accept", title := "Accept as Valid",
           description := "Mark this anomaly as acceptable for your organization",
           confidence := (7 : Rat) / 10 },
         { suggestion_type := "manual_entry", title := "Correct Value",
           description := "Manually correct the anomalous value",
           confidence := (9 : Rat) / 10 }]
      else [])

/-- The dictionary `undo_issue_fix` returns. -/
structure UndoResult where
  success : Bool
  message : String
  note : String
deriving Repr, DecidableEq

/-- `undo_issue_fix` (lines 531–548): refuse when unresolved; otherwise
clear the resolution fields, commit, and report that data restoration is
not implemented.  The `FixHistory` rows the session could consult (with
their `rollback_data`) are passed in to make the available information
explicit; the source never queries them, and the table state is returned
untouched. -/
def undo_issue_fix (st : EngineState) (_fix_history : List FixHistoryRecord)
    (issue : ValidationResult) :
    Except String (ValidationResult × UndoResult × EngineState) :=
  if issue.is_resolved = false then
    .error "Issue is not resolved, cannot undo"
  else
    .ok ({ issue with
            is_resolved := false,
            resolution_method := none,
            resolution_data := none },
      { success := true,
        message := "Fix undone - issue marked as unresolved",
        note := "Original data restoration requires backup implementation" },
      st)

/-- One per-item entry of the bulk result list. -/
structure BulkItemResult where
  issue_id : Nat
  success : Bool
  error : Option String := none
deriving Repr, DecidableEq

/-- The dictionary `apply_all_auto_fixes` returns. -/
structure BulkFixResult where
  success : Bool
  message : String
  applied_fixes : Nat
  total_attempted : Nat
  results : List BulkItemResult
deriving Repr, DecidableEq

/-- The `for issue in auto_fixable_issues: try/except` loop of
`apply_all_auto_fixes`: per-issue isolation — a raise is recorded as a
failed item and the loop continues from the pre-raise state (the raising
paths of `apply_fix` mutate nothing). -/
def bulkLoop : EngineState → List ValidationResult →
    EngineState × List BulkItemResult × Nat
  | st, [] => (st, [], 0)
  | st, issue :: rest =>
    match apply_fix st issue "auto_fix" none with
    | .ok (_, st2) =>
      let next := bulkLoop st2 rest
      (next.1, { issue_id := issue.id, success := true } :: next.2.1,
        next.2.2 + 1)
    | .error e =>
      let next := bulkLoop st rest
      (next.1,
        { issue_id := issue.id, success := false, error := some e } :: next.2.1,
        next.2.2)

/-- `BulkFixEngine.apply_all_auto_fixes` (lines 626–670): filter to
auto-fixable, unresolved issues; early return when none; otherwise run the
isolated per-issue loop, then one `_save_dataframe` + commit, and report
`applied_fixes` of `total_attempted` with the per-item results.  (The early
return's dictionary carries only the first three keys; the model zero-fills
the rest.) -/
def apply_all_auto_fixes (st : EngineState) (issues : List ValidationResult) :
    BulkFixResult × EngineState :=
  let auto_fixable_issues :=
    issues.filter (fun i => i.auto_fixable && !i.is_resolved)
  if auto_fixable_issues.isEmpty then
    ({ success := true, message := "No auto-fixable issues found",
       applied_fixes := 0, total_attempted := 0, results := [] }, st)
  else
    let looped := bulkLoop st auto_fixable_issues
    ({ success := true,
       message := "Applied " ++ toString looped.2.2 ++ " of "
         ++ toString auto_fixable_issues.length ++ " auto-fixes",
       applied_fixes := looped.2.2,
       total_attempted := auto_fixable_issues.length,
       results := looped.2.1 },
     save_dataframe looped.1)

/-- Whether `apply_fix(issue, 'auto_fix')` raises — a property of the issue
alone: not auto-fixable, a truthy (non-empty) deserialized `details` dict on
which `json.loads` raises `TypeError`, or the `'Missing Data'` /
`'Missing Required Fields'` branch whose fixer method does not exist. -/
def autoFixRaises (issue : ValidationResult) : Bool :=
  !issue.auto_fixable
  || (loadIssueDetails issue.details).isNone
  || (issue.category == "Missing Data" && issue.title == "Missing Required Fields")

/-! ## Quality scorer (`_calculate_data_quality_score`,
`validation_engine.py` lines 752–776) -/

/-- The per-issue deduction of `_calculate_data_quality_score`: the nested
`if issue.severity == …` chains, with the final `else` of each chain
covering `low`, and a flat `1` for `INFO`. -/
def issueDeduction (i : ValidationIssue) : Int :=
  match i.issue_type with
  | .critical =>
    match i.severity with
    | .high => 15
    | .medium => 10
    | .low => 5
  | .warning =>
    match i.severity with
    | .high => 8
    | .medium => 5
    | .low => 2
  | .info => 1

/-- `_calculate_data_quality_score`: start from `100.0`, subtract the
deduction of every issue in order, then `max(0.0, score)`.  All intermediate
values are integers, exact in IEEE double, so `Int` is faithful. -/
def calculate_data_quality_score (issues : List ValidationIssue) : Int :=
  max 0 (issues.foldl (fun score i => score - issueDeduction i) 100)

/-! ## Lemmas and claim theorems -/

/-! ### Basic table lemmas -/

/-- Any `findIdx?` hit satisfies its predicate at the found index. -/
theorem findIdx?_some_pred {α : Type} {l : List α} {p : α → Bool} {i : Nat}
    (h : l.findIdx? p = some i) : ∃ x, l[i]? = some x ∧ p x = true := by
  rw [List.findIdx?_eq_some_iff_findIdx_eq] at h
  obtain ⟨hlt, hfi⟩ := h
  refine ⟨l[i], by simp [List.getElem?_eq_getElem hlt], ?_⟩
  subst hfi
  exact List.findIdx_getElem

/-- Two distinct column names never resolve to the same column index. -/
theorem colIdx_injective {t : Table} {c c' : String} {i : Nat}
    (hc : t.colIdx c = some i) (hc' : t.colIdx c' = some i) : c = c' := by
  obtain ⟨x, hx, hpx⟩ := findIdx?_some_pred hc
  obtain ⟨y, hy, hpy⟩ := findIdx?_some_pred hc'
  rw [hx] at hy
  cases hy
  simp only [decide_eq_true_eq] at hpx hpy
  rw [← hpx, ← hpy]

theorem setCell_cols (t : Table) (r : Nat) (c : String) (v : Cell) :
    (t.setCell r c v).cols = t.cols := by
  unfold Table.setCell
  split <;> try rfl
  split <;> rfl

theorem setCell_rows_length (t : Table) (r : Nat) (c : String) (v : Cell) :
    (t.setCell r c v).rows.length = t.rows.length := by
  unfold Table.setCell
  split
  · rfl
  split
  · rfl
  · simp

theorem colIdx_setCell (t : Table) (r : Nat) (c c' : String) (v : Cell) :
    (t.setCell r c v).colIdx c' = t.colIdx c' := by
  unfold Table.colIdx
  rw [setCell_cols]

/-- Frame rule: writing a cell leaves every other row untouched. -/
theorem cellAt_setCell_ne_row {t : Table} {r r' : Nat} {c c' : String}
    {v : Cell} (h : r' ≠ r) :
    (t.setCell r c v).cellAt r' c' = t.cellAt r' c' := by
  unfold Table.cellAt
  rw [colIdx_setCell]
  cases hci' : t.colIdx c' with
  | none => rfl
  | some ci' =>
    unfold Table.setCell
    cases hci : t.colIdx c with
    | none => rfl
    | some ci =>
      cases hrow : t.rows[r]? with
      | none => rfl
      | some row => simp [List.getElem?_set_ne (Ne.symm h)]

/-- Frame rule: writing a cell leaves every other column untouched. -/
theorem cellAt_setCell_ne_col {t : Table} {r r' : Nat} {c c' : String}
    {v : Cell} (h : c' ≠ c) :
    (t.setCell r c v).cellAt r' c' = t.cellAt r' c' := by
  unfold Table.cellAt
  rw [colIdx_setCell]
  cases hci' : t.colIdx c' with
  | none => rfl
  | some ci' =>
    unfold Table.setCell
    cases hci : t.colIdx c with
    | none => rfl
    | some ci =>
      cases hrow : t.rows[r]? with
      | none => rfl
      | some row =>
        have hne : ci ≠ ci' := fun he => h (colIdx_injective hci' (he ▸ hci))
        simp only
        by_cases hr : r' = r
        · subst hr
          rw [List.getElem?_set_self]
          · rw [hrow]
            simp [List.getElem?_set_ne hne]
          · exact (List.getElem?_eq_some_iff.mp hrow).1
        · simp [List.getElem?_set_ne (Ne.symm hr)]

/-- A successful write lands: if the cell exists, `setCell` stores `v` there. -/
theorem cellAt_setCell_self {t : Table} {r : Nat} {c : String} {cell v : Cell}
    (h : t.cellAt r c = some cell) :
    (t.setCell r c v).cellAt r c = some v := by
  unfold Table.cellAt at h ⊢
  rw [colIdx_setCell]
  cases hci : t.colIdx c with
  | none => rw [hci] at h; exact absurd h (by simp)
  | some ci =>
    rw [hci] at h
    cases hrow : t.rows[r]? with
    | none => rw [hrow] at h; exact absurd h (by simp)
    | some row =>
      rw [hrow] at h
      unfold Table.setCell
      rw [hci, hrow]
      simp only
      rw [List.getElem?_set_self]
      · have hci_lt : ci < row.length := (List.getElem?_eq_some_iff.mp h).1
        simp [List.getElem?_set_eq_of_lt _ hci_lt]
      · exact (List.getElem?_eq_some_iff.mp hrow).1

/-- A cell that exists witnesses its column's presence. -/
theorem hasCol_of_cellAt {t : Table} {r : Nat} {c : String} {cell : Cell}
    (h : t.cellAt r c = some cell) : t.hasCol c = true := by
  unfold Table.cellAt at h
  cases hci : t.colIdx c with
  | none => rw [hci] at h; exact absurd h (by simp)
  | some ci =>
    unfold Table.colIdx at hci
    obtain ⟨x, hx, hpx⟩ := findIdx?_some_pred hci
    simp only [decide_eq_true_eq] at hpx
    subst hpx
    unfold Table.hasCol
    exact List.elem_eq_true_of_mem (List.getElem?_mem hx)

/-- The fold above is plain subtraction of the total deduction. -/
theorem calculate_data_quality_score_eq (issues : List ValidationIssue) :
    calculate_data_quality_score issues
      = max 0 (100 - (issues.map issueDeduction).sum) := by
  unfold calculate_data_quality_score
  congr 1
  suffices h : ∀ (a : Int),
      issues.foldl (fun score i => score - issueDeduction i) a
        = a - (issues.map issueDeduction).sum by
    simpa using h 100
  induction issues with
  | nil => intro a; simp
  | cons x xs ih =>
    intro a
    simp only [List.foldl_cons, List.map_cons, List.sum_cons, ih]
    ring

/-- Every single-issue deduction is at least 1 (hence nonnegative). -/
theorem issueDeduction_pos (i : ValidationIssue) : 1 ≤ issueDeduction i := by
  unfold issueDeduction
  cases i.issue_type <;> cases i.severity <;> decide

theorem sum_deductions_nonneg (issues : List ValidationIssue) :
    0 ≤ (issues.map issueDeduction).sum := by
  induction issues with
  | nil => simp
  | cons x xs ih =>
    simp only [List.map_cons, List.sum_cons]
    have := issueDeduction_pos x
    omega

/-- C1: the quality score computed by `_calculate_data_quality_score` equals
100 minus the summed per-issue deductions of the table
(critical: high 15 / medium 10 / low 5; warning: high 8 / medium 5 / low 2;
info: 1 regardless of severity), clamped to `[0, 100]`, and the result is
invariant under permuting the issue list (it depends only on the multiset
of issues). -/
theorem quality_score_is_clamped_deduction_sum_and_order_independent
    (issues issues' : List ValidationIssue) (hperm : issues.Perm issues') :
    calculate_data_quality_score issues
        = max 0 (min 100 (100 - (issues.map issueDeduction).sum))
      ∧ calculate_data_quality_score issues
        = calculate_data_quality_score issues' := by
  constructor
  · rw [calculate_data_quality_score_eq]
    have h := sum_deductions_nonneg issues
    omega
  · rw [calculate_data_quality_score_eq, calculate_data_quality_score_eq,
      (hperm.map issueDeduction).sum_eq]

/-- Witness for C1 at a concrete pair of permuted issue lists. -/
theorem quality_score_is_clamped_deduction_sum_and_order_independent_witness :
    calculate_data_quality_score
        [{ issue_type := .critical, severity := .high },
         { issue_type := .info, severity := .low }]
      = max 0 (min 100 (100 -
          (([{ issue_type := .critical, severity := .high },
             { issue_type := .info, severity := .low }] :
              List ValidationIssue).map issueDeduction).sum))
    ∧ calculate_data_quality_score
        [{ issue_type := .critical, severity := .high },
         { issue_type := .info, severity := .low }]
      = calculate_data_quality_score
        [{ issue_type := .info, severity := .low },
         { issue_type := .critical, severity := .high }] :=
  quality_score_is_clamped_deduction_sum_and_order_independent _ _
    (List.Perm.swap _ _ [])

/-- C6: the overall quality score always lies in `[0, 100]`, adding an issue
never increases it, and replacing an issue by one whose kind/severity carries
a larger-or-equal deduction never increases it. -/
theorem quality_score_bounds_and_monotone
    (issues : List ValidationIssue) (i j : ValidationIssue)
    (hij : issueDeduction i ≤ issueDeduction j) :
    (0 ≤ calculate_data_quality_score issues
      ∧ calculate_data_quality_score issues ≤ 100)
    ∧ calculate_data_quality_score (i :: issues)
        ≤ calculate_data_quality_score issues
    ∧ calculate_data_quality_score (j :: issues)
        ≤ calculate_data_quality_score (i :: issues) := by
  have hs := sum_deductions_nonneg issues
  have hi := issueDeduction_pos i
  have hj := issueDeduction_pos j
  rw [calculate_data_quality_score_eq, calculate_data_quality_score_eq,
    calculate_data_quality_score_eq]
  simp only [List.map_cons, List.sum_cons]
  omega

/-- Witness for C6 at concrete issues (warning/medium raised to
critical/high over a singleton issue set). -/
theorem quality_score_bounds_and_monotone_witness :
    (0 ≤ calculate_data_quality_score [{ issue_type := .info, severity := .low }]
      ∧ calculate_data_quality_score [{ issue_type := .info, severity := .low }] ≤ 100)
    ∧ calculate_data_quality_score
        [{ issue_type := .warning, severity := .medium },
         { issue_type := .info, severity := .low }]
        ≤ calculate_data_quality_score [{ issue_type := .info, severity := .low }]
    ∧ calculate_data_quality_score
        [{ issue_type := .critical, severity := .high },
         { issue_type := .info, severity := .low }]
        ≤ calculate_data_quality_score
        [{ issue_type := .warning, severity := .medium },
         { issue_type := .info, severity := .low }] :=
  quality_score_bounds_and_monotone
    [{ issue_type := .info, severity := .low }]
    { issue_type := .warning, severity := .medium }
    { issue_type := .critical, severity := .high }
    (by decide)

/-- C9: every `ValidationIssue` that goes through the dataclass constructor
(which all detectors do) ends up with `affected_employees` equal to the
number of distinct affected rows — `__post_init__` overwrites whatever count
the detector supplied — and in particular every issue emitted by
`_validate_required_fields`, including the missing-column issue constructed
with the table-scoped count `len(self.df)`, satisfies the invariant. -/
theorem affected_employees_eq_distinct_affected_rows
    (args : ValidationIssue) (df : Table) (issue : ValidationIssue)
    (hmem : issue ∈ validate_required_fields df) :
    (mkValidationIssue args).affected_employees
        = args.affected_rows.dedup.length
    ∧ issue.affected_employees = issue.affected_rows.dedup.length := by
  refine ⟨rfl, ?_⟩
  simp only [validate_required_fields, List.mem_flatMap] at hmem
  obtain ⟨f, -, hin⟩ := hmem
  split at hin
  · split at hin
    · simp at hin
    · rw [List.mem_singleton] at hin
      subst hin; rfl
  · rw [List.mem_singleton] at hin
    subst hin; rfl

/-- Witness for C9: a two-row table with only an `SSN` column; the
missing-`DOB` issue (constructed by the detector with the table-scoped count
`len(self.df) = 2`) is among the emitted issues and satisfies the invariant,
and the constructor-level half is instantiated at an issue carrying a stale
count of 99. -/
theorem affected_employees_eq_distinct_affected_rows_witness :
    (mkValidationIssue
        { affected_rows := [2, 2, 5], affected_employees := 99 }).affected_employees
      = ([2, 2, 5] : List Nat).dedup.length
    ∧ (mkValidationIssue
        { issue_type := .critical, severity := .high,
          title := "Missing Required Field: DOB",
          description := "The DOB field is required for compliance testing but was not found in the uploaded data.",
          affected_employees := 2,
          suggested_action := "Add the DOB column to your data file or map an existing column to DOB.",
          confidence_score := 1,
          details := [("field_name", "DOB"),
                      ("required_for", "compliance_testing")] }).affected_employees
      = (mkValidationIssue
        { issue_type := .critical, severity := .high,
          title := "Missing Required Field: DOB",
          description := "The DOB field is required for compliance testing but was not found in the uploaded data.",
          affected_employees := 2,
          suggested_action := "Add the DOB column to your data file or map an existing column to DOB.",
          confidence_score := 1,
          details := [("field_name", "DOB"),
                      ("required_for", "compliance_testing")] }).affected_rows.dedup.length :=
  affected_employees_eq_distinct_affected_rows
    { affected_rows := [2, 2, 5], affected_employees := 99 }
    { cols := ["SSN"], rows := [[none], [some "123-45-6789"]] }
    _ (by decide)


/-! ### Fix-engine claim theorems (C10, C2, C4, C8) -/

/-- Every category string the validation engine can emit (the enum
`.value`s) differs from the capitalized strings the fix engine matches. -/
theorem category_value_ne_fix_engine_strings (c : Category) :
    c.value ≠ "Format Error" ∧ c.value ≠ "Missing Data"
      ∧ c.value ≠ "Anomaly" := by
  cases c <;> exact ⟨by decide, by decide, by decide⟩

/-- C10 counterexample: an auto-fixable issue exactly as the validation
engine emits it — lowercase category `"format_error"` (so inside the
claim's not-`'Format Error'`/not-`'Missing Data'` class) and a non-empty
deserialized `details` dict from the JSON column — does *not* complete
without error: `json.loads` of the dict raises `TypeError` before the
category dispatch, so the auto-fix fails instead of silently no-opping. -/
theorem auto_fix_engine_issue_raises_TypeError :
    Category.format_error.value = "format_error"
    ∧ apply_fix
        { df := { cols := ["DOB"], rows := [[some "Jan 15 24"]] },
          fileContents := { cols := ["DOB"], rows := [[some "Jan 15 24"]] } }
        { id := 4, category := "format_error",
          title := "Invalid Date Format in DOB",
          auto_fixable := true, affected_rows := [0],
          confidence_score := (9 : Rat) / 10,
          details := some [("field_name", "DOB"),
            ("expected_format", "YYYY-MM-DD"), ("invalid_count", "1")] }
        "auto_fix" none
      = .error "TypeError: the JSON object must be str, bytes or bytearray, not dict" :=
  ⟨rfl, rfl⟩

/-- C10 amended: for every auto-fixable issue whose category string is
neither exactly `'Format Error'` nor exactly `'Missing Data'`:
if its `details` JSON value is falsy (SQL NULL or the empty dict, so
`json.loads` is skipped), `apply_fix` with `'auto_fix'` completes without
error, reports `changes_applied = 0` with an empty change list, and leaves
the working table unchanged; but for any auto-fixable issue carrying a
non-empty deserialized `details` dict — as every issue the validation
engine emits does, alongside its lowercase category values — `json.loads`
raises `TypeError` before the category dispatch, so the auto-fix fails
rather than silently doing nothing. -/
theorem auto_fix_unmatched_category_noop_only_for_falsy_details
    (st st2 : EngineState) (issue issue2 : ValidationResult)
    (p : String × String) (ps : List (String × String)) (c : Category)
    (hfix : issue.auto_fixable = true)
    (hdet : issue.details = none ∨ issue.details = some [])
    (h1 : issue.category ≠ "Format Error")
    (h2 : issue.category ≠ "Missing Data")
    (hfix2 : issue2.auto_fixable = true)
    (hdet2 : issue2.details = some (p :: ps)) :
    apply_fix st issue "auto_fix" none
        = .ok (.autoFix
            { action := "auto_fix",
              affected_rows := issue.affected_rows.length,
              changes_applied := 0,
              details := [] },
            save_dataframe st)
      ∧ (save_dataframe st).df = st.df
      ∧ apply_fix st2 issue2 "auto_fix" none
          = .error "TypeError: the JSON object must be str, bytes or bytearray, not dict"
      ∧ c.value ≠ "Format Error" ∧ c.value ≠ "Missing Data" := by
  have hload : loadIssueDetails issue.details = some [] := by
    rcases hdet with h | h <;> rw [h] <;> rfl
  refine ⟨?_, rfl, ?_, (category_value_ne_fix_engine_strings c).1,
    (category_value_ne_fix_engine_strings c).2.1⟩
  · unfold apply_fix apply_auto_fix autoFixDispatch
    rw [if_pos rfl, hfix, hload]
    simp only [Bool.true_eq_false, if_false, if_neg h1, if_neg h2]
    rfl
  · unfold apply_fix apply_auto_fix
    rw [if_pos rfl, hfix2, hdet2]
    simp only [Bool.true_eq_false, if_false]
    rfl

/-- Witness for C10 amended: a NULL-details auto-fixable `logic_error`
issue no-ops without error, while an engine-shaped `anomaly` issue with a
one-entry details dict raises `TypeError`. -/
theorem auto_fix_unmatched_category_noop_only_for_falsy_details_witness :
    apply_fix
        { df := { cols := ["SSN"], rows := [[some "12345"]] },
          fileContents := { cols := ["SSN"], rows := [[some "12345"]] } }
        { id := 3, category := "logic_error",
          title := "Termination Date Before Hire Date",
          auto_fixable := true, affected_rows := [0] }
        "auto_fix" none
        = .ok (.autoFix
            { action := "auto_fix", affected_rows := 1,
              changes_applied := 0, details := [] },
            save_dataframe
              { df := { cols := ["SSN"], rows := [[some "12345"]] },
                fileContents := { cols := ["SSN"], rows := [[some "12345"]] } })
      ∧ (save_dataframe
            { df := { cols := ["SSN"], rows := [[some "12345"]] },
              fileContents := { cols := ["SSN"], rows := [[some "12345"]] } }).df
          = ({ cols := ["SSN"], rows := [[some "12345"]] } : Table)
      ∧ apply_fix
          { df := { cols := ["PriorYearComp"], rows := [[some "50000"]] },
            fileContents := { cols := ["PriorYearComp"], rows := [[some "50000"]] } }
          { id := 5, category := "anomaly",
            title := "Statistical Outliers Detected in PriorYearComp",
            auto_fixable := true, affected_rows := [0],
            details := some [("field_name", "PriorYearComp")] }
          "auto_fix" none
          = .error "TypeError: the JSON object must be str, bytes or bytearray, not dict"
      ∧ Category.logic_error.value ≠ "Format Error"
      ∧ Category.logic_error.value ≠ "Missing Data" :=
  auto_fix_unmatched_category_noop_only_for_falsy_details
    _ _ _
    { id := 5, category := "anomaly",
      title := "Statistical Outliers Detected in PriorYearComp",
      auto_fixable := true, affected_rows := [0],
      details := some [("field_name", "PriorYearComp")] }
    ("field_name", "PriorYearComp") [] .logic_error
    rfl (Or.inl rfl) (by decide) (by decide) rfl rfl

/-- C2 (code bug): `preview_fix` restores the in-memory working table, but
the `_apply_auto_fix` it runs on the "disposable" copy calls
`_save_dataframe`, so the previewed changes are written over the persisted
backing file: at a one-row table whose SSN auto-fix rewrites
`"123 45 6789"`, the returned state keeps the original working table while
the backing file now holds the previewed `"123-45-6789"` — the persisted
state is mutated, contradicting the zero-mutation guarantee. -/
theorem preview_fix_persists_previewed_changes :
    preview_fix
        { df := { cols := ["SSN"], rows := [[some "123 45 6789"]] },
          fileContents := { cols := ["SSN"], rows := [[some "123 45 6789"]] } }
        { id := 7, category := "Format Error", title := "Invalid SSN Format",
          auto_fixable := true, affected_rows := [0] }
        = .ok ({ changes := [⟨0, "SSN", "123 45 6789", "123-45-6789"⟩],
                 affected_rows := 1, changes_count := 1 },
            { df := { cols := ["SSN"], rows := [[some "123 45 6789"]] },
              fileContents := { cols := ["SSN"], rows := [[some "123-45-6789"]] } })
      ∧ ({ cols := ["SSN"], rows := [[some "123-45-6789"]] } : Table)
          ≠ { cols := ["SSN"], rows := [[some "123 45 6789"]] } :=
  ⟨by rfl, by decide⟩

/-- C4 counterexample: a resolved issue whose `FixHistory` record carries
`rollback_data` naming the original value `"123 45 6789"`; `undo_issue_fix`
returns the table state untouched — the cell still holds `"123-45-6789"`,
so the original cell values are *not* restored even though rollback data is
present. -/
theorem undo_ignores_rollback_data :
    undo_issue_fix
        { df := { cols := ["SSN"], rows := [[some "123-45-6789"]] },
          fileContents := { cols := ["SSN"], rows := [[some "123-45-6789"]] } }
        [{ validation_result_id := 7, fix_type := "auto_fix", success := true,
           rollback_data := some "\x7b\"row\": 0, \"column\": \"SSN\", \"original\": \"123 45 6789\"\x7d" }]
        { id := 7, category := "Format Error", title := "Invalid SSN Format",
          auto_fixable := true, affected_rows := [0], is_resolved := true,
          resolution_method := some "auto_fix" }
        = .ok ({ id := 7, category := "Format Error",
                 title := "Invalid SSN Format", auto_fixable := true,
                 affected_rows := [0], is_resolved := false },
            { success := true,
              message := "Fix undone - issue marked as unresolved",
              note := "Original data restoration requires backup implementation" },
            { df := { cols := ["SSN"], rows := [[some "123-45-6789"]] },
              fileContents := { cols := ["SSN"], rows := [[some "123-45-6789"]] } })
      ∧ (({ cols := ["SSN"], rows := [[some "123-45-6789"]] } : Table).cellAt 0 "SSN"
          = some (some "123-45-6789"))
      ∧ ("123-45-6789" : String) ≠ "123 45 6789" :=
  ⟨rfl, rfl, by decide⟩

/-- C4 amended: `undo_issue_fix` on any resolved issue reverts the
resolution fields to unresolved and succeeds, but — whatever the fix
history and its `rollback_data` say — it returns the table state untouched
and its result explicitly reports that original data was not restored;
rollback data is never consulted. -/
theorem undo_reverts_resolution_only_and_reports_no_restore
    (st : EngineState) (history : List FixHistoryRecord)
    (issue : ValidationResult) (hres : issue.is_resolved = true) :
    undo_issue_fix st history issue
      = .ok ({ issue with
                is_resolved := false,
                resolution_method := none,
                resolution_data := none },
          { success := true,
            message := "Fix undone - issue marked as unresolved",
            note := "Original data restoration requires backup implementation" },
          st) := by
  unfold undo_issue_fix
  rw [hres]
  simp

/-- Witness for C4 amended, at a concrete resolved issue with a
rollback-carrying history record. -/
theorem undo_reverts_resolution_only_and_reports_no_restore_witness :
    undo_issue_fix
        { df := { cols := ["DOB"], rows := [[some "01/15/2024"]] },
          fileContents := { cols := ["DOB"], rows := [[some "01/15/2024"]] } }
        [{ validation_result_id := 9, fix_type := "auto_fix", success := true,
           rollback_data := some "\x7b\"original\": \"2024-01-15\"\x7d" }]
        { id := 9, category := "Format Error", title := "Invalid Date Format in DOB",
          auto_fixable := true, is_resolved := true,
          resolution_method := some "auto_fix" }
      = .ok ({ id := 9, category := "Format Error",
               title := "Invalid Date Format in DOB",
               auto_fixable := true, is_resolved := false },
          { success := true,
            message := "Fix undone - issue marked as unresolved",
            note := "Original data restoration requires backup implementation" },
          { df := { cols := ["DOB"], rows := [[some "01/15/2024"]] },
            fileContents := { cols := ["DOB"], rows := [[some "01/15/2024"]] } }) :=
  undo_reverts_resolution_only_and_reports_no_restore _ _ _ rfl

/-- C8 counterexample: an issue of the missing-data category exactly as the
validation engine produces it (category string
`Category.missing_data.value = "missing_data"`, not auto-fixable) receives
no suggestions at all — in particular no `manual_entry` with confidence
1.0 — because `get_fix_suggestions` matches the capitalized
`'Missing Data'` only. -/
theorem get_fix_suggestions_misses_engine_categories :
    Category.missing_data.value = "missing_data"
      ∧ get_fix_suggestions
          { id := 2, category := "missing_data",
            title := "Missing Values in SSN", auto_fixable := false,
            confidence_score := 1 } = [] :=
  ⟨rfl, rfl⟩

/-- C8 amended: `get_fix_suggestions` includes the `auto_fix` entry (with
confidence equal to the issue's confidence score) exactly when the issue is
auto-fixable; the missing-data extras (`manual_entry` 1.0, `exclude` 0.8,
`generate_test` 0.6) are offered exactly for the literal category string
`'Missing Data'` and the anomaly extras (`accept` 0.7, `manual_entry` 0.9)
exactly for `'Anomaly'`; and since every validation-engine category value
is lowercase, issues as the validation engine produces them get only the
`auto_fix` part. -/
theorem get_fix_suggestions_exact_category_strings
    (issue : ValidationResult) (c : Category) :
    ((get_fix_suggestions issue).filter
        (fun s => s.suggestion_type == "auto_fix")
      = if issue.auto_fixable then
          [{ suggestion_type := "auto_fix", title := "Auto-Fix",
             description := "Automatically fix this issue using built-in rules",
             confidence := issue.confidence_score }]
        else [])
    ∧ get_fix_suggestions { issue with category := "Missing Data" }
      = (if issue.auto_fixable then
          [{ suggestion_type := "auto_fix", title := "Auto-Fix",
             description := "Automatically fix this issue using built-in rules",
             confidence := issue.confidence_score }]
        else [])
        ++ [{ suggestion_type := "manual_entry", title := "Manual Entry",
              description := "Manually enter the missing data",
              confidence := 1 },
            { suggestion_type := "exclude", title := "Exclude from Testing",
              description := "Exclude affected records from compliance tests",
              confidence := (8 : Rat) / 10 },
            { suggestion_type := "generate_test", title := "Generate Test Data",
              description := "Generate test data for development/testing purposes",
              confidence := (6 : Rat) / 10 }]
    ∧ get_fix_suggestions { issue with category := "Anomaly" }
      = (if issue.auto_fixable then
          [{ suggestion_type := "auto_fix", title := "Auto-Fix",
             description := "Automatically fix this issue using built-in rules",
             confidence := issue.confidence_score }]
        else [])
        ++ [{ suggestion_type := "accept", title := "Accept as Valid",
              description := "Mark this anomaly as acceptable for your organization",
              confidence := (7 : Rat) / 10 },
            { suggestion_type := "manual_entry", title := "Correct Value",
              description := "Manually correct the anomalous value",
              confidence := (9 : Rat) / 10 }]
    ∧ get_fix_suggestions { issue with category := c.value }
      = (if issue.auto_fixable then
          [{ suggestion_type := "auto_fix", title := "Auto-Fix",
             description := "Automatically fix this issue using built-in rules",
             confidence := issue.confidence_score }]
        else []) := by
  have hc := category_value_ne_fix_engine_strings c
  refine ⟨?_, ?_, ?_, ?_⟩
  · unfold get_fix_suggestions
    cases issue.auto_fixable <;>
      by_cases h1 : issue.category = "Missing Data" <;>
        by_cases h2 : issue.category = "Anomaly" <;>
          simp [h1, h2, List.filter]
  · unfold get_fix_suggestions
    cases issue.auto_fixable <;> simp
  · unfold get_fix_suggestions
    cases issue.auto_fixable <;> simp
  · unfold get_fix_suggestions
    cases hauto : issue.auto_fixable <;> simp [hauto, hc.2.1, hc.2.2]

/-! ### Bulk auto-fix isolation (C3) -/

theorem apply_fix_auto_eq (st : EngineState) (issue : ValidationResult) :
    apply_fix st issue "auto_fix" none
      = match apply_auto_fix st issue with
        | .error e => .error e
        | .ok (r, st2) => .ok (.autoFix r, st2) := by
  unfold apply_fix
  rw [if_pos rfl]

/-- When the `'Missing Data'` / `'Missing Required Fields'` combination is
ruled out, the category/title dispatch never raises. -/
theorem autoFixDispatch_ok (st : EngineState) (issue : ValidationResult)
    (d : List (String × String))
    (hmd : issue.category = "Missing Data" →
      issue.title ≠ "Missing Required Fields") :
    ∃ pr, autoFixDispatch st issue d = .ok pr := by
  unfold autoFixDispatch
  by_cases hc1 : issue.category = "Format Error"
  · simp only [hc1, if_true]
    split_ifs <;> exact ⟨_, rfl⟩
  · by_cases hc2 : issue.category = "Missing Data"
    · simp only [hc1, hc2, if_false, if_true, if_neg (hmd hc2)]
      exact ⟨_, rfl⟩
    · simp only [hc1, hc2, if_false]
      exact ⟨_, rfl⟩

/-- A non-raising issue's auto-fix succeeds from any engine state. -/
theorem apply_auto_fix_ok_of_not_raises (st : EngineState)
    (issue : ValidationResult) (h : autoFixRaises issue = false) :
    ∃ r st2, apply_auto_fix st issue = .ok (r, st2) := by
  unfold autoFixRaises at h
  simp only [Bool.or_eq_false_iff, Bool.not_eq_eq_eq_not, Bool.not_false,
    Bool.and_eq_false_imp, beq_iff_eq, beq_eq_false_iff_ne, ne_eq] at h
  obtain ⟨⟨hauto, hdet⟩, hmd⟩ := h
  obtain ⟨d, hd⟩ : ∃ d, loadIssueDetails issue.details = some d := by
    cases ho : loadIssueDetails issue.details with
    | none => rw [ho] at hdet; cases hdet
    | some d => exact ⟨d, rfl⟩
  obtain ⟨⟨df2, results⟩, hdisp⟩ := autoFixDispatch_ok st issue d hmd
  refine ⟨{ action := "auto_fix",
            affected_rows := issue.affected_rows.length,
            changes_applied := results.length,
            details := results },
      save_dataframe { st with df := df2 }, ?_⟩
  simp only [apply_auto_fix, hauto, Bool.true_eq_false, if_false, hd, hdisp]

/-- A raising issue's auto-fix raises from any engine state. -/
theorem apply_auto_fix_error_of_raises (st : EngineState)
    (issue : ValidationResult) (hauto : issue.auto_fixable = true)
    (h : autoFixRaises issue = true) :
    ∃ e, apply_auto_fix st issue = .error e := by
  unfold autoFixRaises at h
  rw [hauto] at h
  simp only [Bool.not_true, Bool.false_or, Bool.or_eq_true,
    Bool.and_eq_true, beq_iff_eq] at h
  rcases h with hnone | ⟨hc, ht⟩
  · refine ⟨"TypeError: the JSON object must be str, bytes or bytearray, not dict", ?_⟩
    simp only [apply_auto_fix, hauto, Bool.true_eq_false, if_false,
      Option.isNone_iff_eq_none.mp hnone]
  · cases hd : loadIssueDetails issue.details with
    | none =>
      refine ⟨"TypeError: the JSON object must be str, bytes or bytearray, not dict", ?_⟩
      simp only [apply_auto_fix, hauto, Bool.true_eq_false, if_false, hd]
    | some d =>
      have hdisp : autoFixDispatch st issue d
          = .error "AttributeError: no attribute _fix_missing_required_fields" := by
        unfold autoFixDispatch
        rw [if_neg (by rw [hc]; decide), if_pos hc, if_pos ht]
      refine ⟨"AttributeError: no attribute _fix_missing_required_fields", ?_⟩
      simp only [apply_auto_fix, hauto, Bool.true_eq_false, if_false, hd, hdisp]

/-- Per-item isolation of the bulk loop: the success counter counts the
non-raising issues, every issue gets exactly one per-item result, and the
failed items are exactly the raising issues. -/
theorem bulkLoop_counts (issues : List ValidationResult) (st : EngineState)
    (hfix : ∀ i ∈ issues, i.auto_fixable = true) :
    (bulkLoop st issues).2.2 = issues.countP (fun i => !autoFixRaises i)
    ∧ (bulkLoop st issues).2.1.length = issues.length
    ∧ (bulkLoop st issues).2.1.countP (fun r => r.success)
        = issues.countP (fun i => !autoFixRaises i)
    ∧ (bulkLoop st issues).2.1.countP (fun r => !r.success)
        = issues.countP (fun i => autoFixRaises i) := by
  induction issues generalizing st with
  | nil => exact ⟨rfl, rfl, rfl, rfl⟩
  | cons i rest ih =>
    have hi := hfix i (List.mem_cons_self i rest)
    have hrest : ∀ j ∈ rest, j.auto_fixable = true :=
      fun j hj => hfix j (List.mem_cons_of_mem i hj)
    cases hr : autoFixRaises i with
    | false =>
      obtain ⟨r, st2, hok⟩ := apply_auto_fix_ok_of_not_raises st i hr
      have hstep : apply_fix st i "auto_fix" none = .ok (.autoFix r, st2) := by
        rw [apply_fix_auto_eq, hok]
      obtain ⟨ih1, ih2, ih3, ih4⟩ := ih st2 hrest
      unfold bulkLoop
      rw [hstep]
      refine ⟨?_, ?_, ?_, ?_⟩
      · simp [ih1, List.countP_cons, hr]
      · simp [ih2, List.countP_cons]
      · simp [ih3, List.countP_cons, hr]
      · simp [ih4, List.countP_cons, hr]
    | true =>
      obtain ⟨e, herr⟩ := apply_auto_fix_error_of_raises st i hi hr
      have hstep : apply_fix st i "auto_fix" none = .error e := by
        rw [apply_fix_auto_eq, herr]
      obtain ⟨ih1, ih2, ih3, ih4⟩ := ih st hrest
      unfold bulkLoop
      rw [hstep]
      refine ⟨?_, ?_, ?_, ?_⟩
      · simp [ih1, List.countP_cons, hr]
      · simp [ih2, List.countP_cons]
      · simp [ih3, List.countP_cons, hr]
      · simp [ih4, List.countP_cons, hr]

/-- C3: over any list of auto-fixable, unresolved issues of which exactly
one causes `apply_fix` to raise, `apply_all_auto_fixes` records one failure
per-item, still attempts every other issue, and reports exactly `N − 1`
successes and `1` failure out of `N` attempts. -/
theorem bulk_auto_fix_one_failure_isolated (st : EngineState)
    (issues : List ValidationResult)
    (hall : ∀ i ∈ issues, i.auto_fixable = true ∧ i.is_resolved = false)
    (hone : issues.countP (fun i => autoFixRaises i) = 1) :
    (apply_all_auto_fixes st issues).1.applied_fixes = issues.length - 1
    ∧ (apply_all_auto_fixes st issues).1.total_attempted = issues.length
    ∧ (apply_all_auto_fixes st issues).1.results.length = issues.length
    ∧ (apply_all_auto_fixes st issues).1.results.countP (fun r => r.success)
        = issues.length - 1
    ∧ (apply_all_auto_fixes st issues).1.results.countP (fun r => !r.success)
        = 1 := by
  have hfilter : issues.filter (fun i => i.auto_fixable && !i.is_resolved)
      = issues := by
    apply List.filter_eq_self.mpr
    intro i hi
    obtain ⟨h1, h2⟩ := hall i hi
    simp [h1, h2]
  have hne : issues ≠ [] := by
    intro hnil
    rw [hnil] at hone
    simp at hone
  have hsplit : issues.length
      = issues.countP (fun i => autoFixRaises i)
        + issues.countP (fun i => !autoFixRaises i) := by
    simpa using List.length_eq_countP_add_countP
      (fun i => autoFixRaises i) (l := issues)
  obtain ⟨h1, h2, h3, h4⟩ :=
    bulkLoop_counts issues st (fun i hi => (hall i hi).1)
  unfold apply_all_auto_fixes
  rw [hfilter, if_neg (by simpa using hne)]
  refine ⟨?_, rfl, h2, ?_, ?_⟩
  · simp only [h1]
    omega
  · simp only [h3]
    omega
  · simp only [h4, hone]

/-- Witness for C3: three auto-fixable unresolved SSN format issues over a
three-row table; the middle one is deliberately malformed (its `details`
payload is not JSON), so the bulk fix reports 2 of 3 applied with exactly
one failed per-item result. -/
theorem bulk_auto_fix_one_failure_isolated_witness :
    (apply_all_auto_fixes
        { df :=
            { cols := ["SSN"],
              rows := [[some "111 22 3333"], [some "444 55 6666"],
                [some "777 88 9999"]] },
          fileContents :=
            { cols := ["SSN"],
              rows := [[some "111 22 3333"], [some "444 55 6666"],
                [some "777 88 9999"]] } }
        [{ id := 1, category := "Format Error", title := "Invalid SSN Format",
           auto_fixable := true, affected_rows := [0] },
         { id := 2, category := "Format Error", title := "Invalid SSN Format",
           auto_fixable := true, affected_rows := [1],
           details := some [("field_name", "SSN")] },
         { id := 3, category := "Format Error", title := "Invalid SSN Format",
           auto_fixable := true, affected_rows := [2] }]).1.applied_fixes
      = 3 - 1
    ∧ (apply_all_auto_fixes
        { df :=
            { cols := ["SSN"],
              rows := [[some "111 22 3333"], [some "444 55 6666"],
                [some "777 88 9999"]] },
          fileContents :=
            { cols := ["SSN"],
              rows := [[some "111 22 3333"], [some "444 55 6666"],
                [some "777 88 9999"]] } }
        [{ id := 1, category := "Format Error", title := "Invalid SSN Format",
           auto_fixable := true, affected_rows := [0] },
         { id := 2, category := "Format Error", title := "Invalid SSN Format",
           auto_fixable := true, affected_rows := [1],
           details := some [("field_name", "SSN")] },
         { id := 3, category := "Format Error", title := "Invalid SSN Format",
           auto_fixable := true, affected_rows := [2] }]).1.results.countP
        (fun r => !r.success) = 1 := by
  have h := bulk_auto_fix_one_failure_isolated
    { df :=
        { cols := ["SSN"],
          rows := [[some "111 22 3333"], [some "444 55 6666"],
            [some "777 88 9999"]] },
      fileContents :=
        { cols := ["SSN"],
          rows := [[some "111 22 3333"], [some "444 55 6666"],
            [some "777 88 9999"]] } }
    [{ id := 1, category := "Format Error", title := "Invalid SSN Format",
       auto_fixable := true, affected_rows := [0] },
     { id := 2, category := "Format Error", title := "Invalid SSN Format",
       auto_fixable := true, affected_rows := [1],
       details := some [("field_name", "SSN")] },
     { id := 3, category := "Format Error", title := "Invalid SSN Format",
       auto_fixable := true, affected_rows := [2] }]
    (by decide) (by decide)
  exact ⟨h.1, h.2.2.2.2⟩

/-! ### Date normalization (C5) -/

/-- C5 counterexample: there is no single canonical date value that
`"2024-01-15"`, `"01/15/2024"` and `"January 15, 2024"` all normalize to
across both date-normalizing paths — the fix engine's `_standardize_date`
and the validation engine's `_auto_fix_date_format` disagree already on
`"2024-01-15"` (they emit `"01/15/2024"` and `"2024-01-15"` respectively). -/
theorem date_normalization_no_common_canonical_value :
    ¬ ∃ v : String,
      standardize_date "2024-01-15" = some v
      ∧ standardize_date "01/15/2024" = some v
      ∧ standardize_date "January 15, 2024" = some v
      ∧ auto_fix_date_value "2024-01-15" = some v
      ∧ auto_fix_date_value "01/15/2024" = some v
      ∧ auto_fix_date_value "January 15, 2024" = some v := by
  rintro ⟨v, h1, -, -, h4, -, -⟩
  rw [show standardize_date "2024-01-15" = some "01/15/2024" from rfl] at h1
  cases h1
  rw [show auto_fix_date_value "2024-01-15" = some "2024-01-15" from rfl] at h4
  exact absurd (Option.some.inj h4) (by decide)

/-- C5 amended: within each date-normalizing path the three inputs do agree
on one value — the fix engine's `_standardize_date` sends all three to
`"01/15/2024"` and the validation engine's `_auto_fix_date_format` sends all
three to `"2024-01-15"` — but the two paths' canonical formats differ. -/
theorem date_normalization_agrees_within_each_path :
    (standardize_date "2024-01-15" = some "01/15/2024"
      ∧ standardize_date "01/15/2024" = some "01/15/2024"
      ∧ standardize_date "January 15, 2024" = some "01/15/2024")
    ∧ (auto_fix_date_value "2024-01-15" = some "2024-01-15"
      ∧ auto_fix_date_value "01/15/2024" = some "2024-01-15"
      ∧ auto_fix_date_value "January 15, 2024" = some "2024-01-15")
    ∧ ("01/15/2024" : String) ≠ "2024-01-15" :=
  ⟨⟨rfl, rfl, rfl⟩, ⟨rfl, rfl, rfl⟩, by decide⟩

/-! ### SSN auto-fix lemmas (C7) -/

theorem fixSsnCell_cols (df : Table) (res : List Change) (r : Nat) (c : String) :
    (fixSsnCell df res r c).1.cols = df.cols := by
  unfold fixSsnCell
  split
  · split <;> try rfl
    split <;> try rfl
    split <;> simp [setCell_cols]
  · rfl

theorem fixSsnCell_rows_length (df : Table) (res : List Change) (r : Nat)
    (c : String) : (fixSsnCell df res r c).1.rows.length = df.rows.length := by
  unfold fixSsnCell
  split
  · split <;> try rfl
    split <;> try rfl
    split <;> simp [setCell_rows_length]
  · rfl

/-- Frame rule: fixing cell `(r, c)` touches no other cell. -/
theorem fixSsnCell_frame {df : Table} {res : List Change} {r r' : Nat}
    {c c' : String} (h : r' ≠ r ∨ c' ≠ c) :
    (fixSsnCell df res r c).1.cellAt r' c' = df.cellAt r' c' := by
  unfold fixSsnCell
  split
  · split <;> try rfl
    split <;> try rfl
    split
    · cases h with
      | inl h => exact cellAt_setCell_ne_row h
      | inr h => exact cellAt_setCell_ne_col h
    · rfl
  · rfl

/-- Action rule: a string cell at `(r, c)` in a present SSN column becomes
its standardized value when standardization succeeds and changes it, and
stays put otherwise. -/
theorem fixSsnCell_action {df : Table} {res : List Change} {r : Nat}
    {c : String} {s : String} (hcell : df.cellAt r c = some (some s)) :
    (fixSsnCell df res r c).1.cellAt r c
      = some (some ((standardize_ssn s).getD s)) := by
  have hcol := hasCol_of_cellAt hcell
  unfold fixSsnCell
  rw [hcol]
  simp only [if_true, hcell]
  cases hstd : standardize_ssn s with
  | none => simpa using hcell
  | some fixed =>
    simp only
    split
    · simpa using cellAt_setCell_self hcell
    · rename_i hne
      rw [not_not] at hne
      subst hne
      simpa using hcell

theorem fixSsnRow_cols (st : Table × List Change) (r : Nat) :
    (fixSsnRow st r).1.cols = st.1.cols := by
  obtain ⟨df, res⟩ := st
  simp [fixSsnRow, ssnColumns, List.foldl, fixSsnCell_cols]

theorem fixSsnRow_rows_length (st : Table × List Change) (r : Nat) :
    (fixSsnRow st r).1.rows.length = st.1.rows.length := by
  obtain ⟨df, res⟩ := st
  simp [fixSsnRow, ssnColumns, List.foldl, fixSsnCell_rows_length]

/-- Frame rule: processing row `r` leaves every other row's cells alone. -/
theorem fixSsnRow_frame {st : Table × List Change} {r r' : Nat} {c' : String}
    (h : r' ≠ r) : (fixSsnRow st r).1.cellAt r' c' = st.1.cellAt r' c' := by
  obtain ⟨df, res⟩ := st
  simp only [fixSsnRow, ssnColumns, List.foldl]
  rw [fixSsnCell_frame (Or.inl h), fixSsnCell_frame (Or.inl h),
    fixSsnCell_frame (Or.inl h)]

/-- Action rule for a whole row: each string cell of a present SSN column is
standardized in place. -/
theorem fixSsnRow_action {st : Table × List Change} {r : Nat} {c : String}
    {s : String} (hc : c ∈ ssnColumns)
    (hcell : st.1.cellAt r c = some (some s)) :
    (fixSsnRow st r).1.cellAt r c = some (some ((standardize_ssn s).getD s)) := by
  obtain ⟨df, res⟩ := st
  simp only [ssnColumns, List.mem_cons, List.mem_singleton] at hc
  simp only [fixSsnRow, ssnColumns, List.foldl]
  rcases hc with hc | hc | hc | hc
  · subst hc
    rw [fixSsnCell_frame (Or.inr (by decide)),
      fixSsnCell_frame (Or.inr (by decide))]
    exact fixSsnCell_action hcell
  · subst hc
    rw [fixSsnCell_frame (Or.inr (by decide))]
    exact fixSsnCell_action (by rw [fixSsnCell_frame (Or.inr (by decide))]; exact hcell)
  · subst hc
    exact fixSsnCell_action
      (by rw [fixSsnCell_frame (Or.inr (by decide)),
            fixSsnCell_frame (Or.inr (by decide))]; exact hcell)
  · cases hc

/-- One step of `_fix_ssn_formats`' outer loop. -/
theorem fixSsnStep_cellAt_ne {st : Table × List Change} {a r : Nat}
    {c : String} (h : r ≠ a) :
    ((if st.1.rows.length ≤ a then st else fixSsnRow st a)).1.cellAt r c
      = st.1.cellAt r c := by
  split
  · rfl
  · exact fixSsnRow_frame h

theorem fixSsnStep_rows_length (st : Table × List Change) (a : Nat) :
    ((if st.1.rows.length ≤ a then st else fixSsnRow st a)).1.rows.length
      = st.1.rows.length := by
  split
  · rfl
  · exact fixSsnRow_rows_length st a

/-- Frame rule for the outer loop: rows outside `affected` are untouched. -/
theorem fix_ssn_formats_foldl_frame (affected : List Nat)
    (st : Table × List Change) (r : Nat) (c : String) (h : r ∉ affected) :
    (affected.foldl
        (fun st a => if st.1.rows.length ≤ a then st else fixSsnRow st a)
        st).1.cellAt r c = st.1.cellAt r c := by
  induction affected generalizing st with
  | nil => rfl
  | cons a tl ih =>
    simp only [List.mem_cons, not_or] at h
    rw [List.foldl_cons, ih _ h.2, fixSsnStep_cellAt_ne h.1]

theorem fix_ssn_formats_foldl_rows_length (affected : List Nat)
    (st : Table × List Change) :
    (affected.foldl
        (fun st a => if st.1.rows.length ≤ a then st else fixSsnRow st a)
        st).1.rows.length = st.1.rows.length := by
  induction affected generalizing st with
  | nil => rfl
  | cons a tl ih => rw [List.foldl_cons, ih, fixSsnStep_rows_length]

/-- C7: the SSN auto-fix (`_fix_ssn_formats`) rewrites each affected cell of
a present SSN column by `_standardize_ssn`: when stripping non-digit
characters leaves exactly 9 digits, the cell becomes `XXX-XX-XXXX`; with any
other number of digits the row is skipped and the cell keeps its original
value (no partial fix).  In particular `"123 45 6789"` standardizes to
`"123-45-6789"`. -/
theorem ssn_autofix_writes_nine_digit_ssn_else_skips
    (df : Table) (affected : List Nat) (r : Nat) (c : String) (s : String)
    (hnd : affected.Nodup) (hr : r ∈ affected) (hlt : r < df.rows.length)
    (hc : c ∈ ssnColumns) (hcell : df.cellAt r c = some (some s)) :
    (fix_ssn_formats df affected).1.cellAt r c
        = some (some (if (stripNonDigits s).length = 9
            then formatSsn (stripNonDigits s) else s))
      ∧ standardize_ssn "123 45 6789" = some "123-45-6789" := by
  refine ⟨?_, by decide⟩
  have hgoal : ∀ (st : Table × List Change) (l : List Nat), l.Nodup → r ∈ l →
      st.1.rows.length = df.rows.length →
      st.1.cellAt r c = some (some s) →
      (l.foldl (fun st a => if st.1.rows.length ≤ a then st else fixSsnRow st a)
          st).1.cellAt r c
        = some (some ((standardize_ssn s).getD s)) := by
    intro st l
    induction l generalizing st with
    | nil => intro _ h; cases h
    | cons a tl ih =>
      intro hnd hmem hlen hcell'
      rw [List.nodup_cons] at hnd
      rw [List.foldl_cons]
      rcases List.mem_cons.mp hmem with heq | htl
      · subst heq
        have hguard : ¬ st.1.rows.length ≤ r := by omega
        rw [if_neg hguard]
        rw [fix_ssn_formats_foldl_frame _ _ _ _ hnd.1]
        exact fixSsnRow_action hc hcell'
      · refine ih _ hnd.2 htl ?_ ?_
        · rw [fixSsnStep_rows_length, hlen]
        · rw [fixSsnStep_cellAt_ne, hcell']
          intro heq
          exact hnd.1 (heq ▸ htl)
  have h := hgoal (df, []) affected hnd hr rfl hcell
  rw [fix_ssn_formats, h]
  unfold standardize_ssn
  by_cases h9 : (stripNonDigits s).length = 9 <;> simp [h9]

/-- Witness for C7: a one-row table whose `SSN` cell is `"123 45 6789"`;
running the auto-fix on row 0 rewrites it to `"123-45-6789"`. -/
theorem ssn_autofix_writes_nine_digit_ssn_else_skips_witness :
    (fix_ssn_formats { cols := ["SSN"], rows := [[some "123 45 6789"]] }
        [0]).1.cellAt 0 "SSN"
        = some (some (if (stripNonDigits "123 45 6789").length = 9
            then formatSsn (stripNonDigits "123 45 6789") else "123 45 6789"))
      ∧ standardize_ssn "123 45 6789" = some "123-45-6789" :=
  ssn_autofix_writes_nine_digit_ssn_else_skips
    { cols := ["SSN"], rows := [[some "123 45 6789"]] }
    [0] 0 "SSN" "123 45 6789"
    (by decide) (by decide) (by decide) (by decide) (by decide)

end KPlanIQ
